import Mathlib

/-!
Verification of the money-tracker service (FastAPI + SQLAlchemy).

The development shallowly embeds the data model (`app/models.py`), the
transaction schemas (`app/schemas/transaction.py`) and the endpoint logic of
`app/routers/transactions.py` as pure Lean functions over an explicit database
state.  Datetimes are modelled as `Int` timestamps (seconds), `Decimal`
amounts as `Rat`, and a table as a `List` of rows kept in insertion order.
A SQL query becomes a `List.filter`; `ORDER BY date DESC` guarantees only a
date-descending permutation of the rows (`isOrderByDateDescResult`), of
which the embedding fixes one (`orderByDateDesc`, a stable sort) to stay a
function; `OFFSET`/`LIMIT` become `List.drop`/`List.take`.
-/

namespace MoneyTracker

/-- Transaction/category polarity (`TransactionType` in `app/schemas/transaction.py`,
the `Enum('income', 'expense')` columns in `app/models.py`). -/
inductive TxType where
  | income
  | expense
deriving DecidableEq, Repr

/-- A row of the `transactions` table (`app/models.py`, class `Transaction`).
`category_id` is nullable; `amount` is `Numeric(10,2)` modelled as `Rat`;
`date` is a timestamp modelled as `Int`. -/
structure Transaction where
  id : Nat
  user_id : Nat
  category_id : Option Nat
  amount : Rat
  date : Int
  description : Option String
  type : TxType
deriving DecidableEq, Repr

/-- A row of the `categories` table (`app/models.py`, class `Category`). -/
structure Category where
  id : Nat
  user_id : Nat
  name : String
  type : TxType
  icon : String
deriving DecidableEq, Repr

/-- The database state: the two tables the transaction endpoints touch,
each a list of rows in insertion order. -/
structure DB where
  transactions : List Transaction
  categories : List Category
deriving DecidableEq, Repr

/-- The optional listing filters of `get_transactions`
(`app/routers/transactions.py`, query parameters). -/
structure TransactionFilter where
  start_date : Option Int
  end_date : Option Int
  category_id : Option Nat
  type : Option TxType
  min_amount : Option Rat
  max_amount : Option Rat
deriving DecidableEq, Repr

/-- The filter with no field supplied. -/
def TransactionFilter.empty : TransactionFilter :=
  ⟨none, none, none, none, none, none⟩

/-- The date-range conditions (`if start_date: ... if end_date: ...`).
A Python `datetime` is always truthy, so these fire exactly when the
parameter is present. -/
def matchesDates (sd ed : Option Int) (t : Transaction) : Bool :=
  (match sd with
   | some d => decide (d ≤ t.date)
   | none => true)
  && (match ed with
      | some d => decide (t.date ≤ d)
      | none => true)

/-- The full WHERE clause built by `get_transactions`
(`app/routers/transactions.py` lines 31-47).  The query is pre-scoped by
`user_id == current_user.id`; each optional filter is added under a Python
truthiness test, so `category_id`, `min_amount` and `max_amount` equal to `0`
behave as if absent (`if category_id:` is false at `0`), while `datetime` and
enum values are truthy whenever present. -/
def matchesFilters (uid : Nat) (f : TransactionFilter) (t : Transaction) : Bool :=
  t.user_id == uid
  && matchesDates f.start_date f.end_date t
  && (match f.category_id with
      | some c => if c = 0 then true else t.category_id == some c
      | none => true)
  && (match f.type with
      | some ty => decide (t.type = ty)
      | none => true)
  && (match f.min_amount with
      | some m => if m = 0 then true else decide (m ≤ t.amount)
      | none => true)
  && (match f.max_amount with
      | some m => if m = 0 then true else decide (t.amount ≤ m)
      | none => true)

/-- Descending-by-date comparison used to model `desc(models.Transaction.date)`. -/
abbrev dateDesc (a b : Transaction) : Prop := b.date ≤ a.date

instance : IsTotal Transaction dateDesc := ⟨fun a b => le_total b.date a.date⟩

instance : IsTrans Transaction dateDesc :=
  ⟨fun _ _ _ h1 h2 => le_trans h2 h1⟩

/-- What `query.order_by(desc(models.Transaction.date))` guarantees: the
result is some permutation of the matching rows that is sorted by date
descending.  The SQL names no tiebreak, so the relative order of rows with
equal dates is chosen by the engine and may differ between executions. -/
def isOrderByDateDescResult (l result : List Transaction) : Prop :=
  result.Perm l ∧ List.Sorted dateDesc result

/-- One fixed engine-compliant ordering, used to make the embedding a
function: a stable sort of the row list.  Properties that hold for every
engine-compliant ordering (membership, date-sortedness, lengths) may be read
off this one; the tie order itself is this model's choice, not the
program's. -/
def orderByDateDesc (l : List Transaction) : List Transaction :=
  l.insertionSort dateDesc

/-- Sum of the `amount` column (`func.sum(models.Transaction.amount)`,
with `scalar() or Decimal('0')` giving `0` on an empty set). -/
def sumAmounts (l : List Transaction) : Rat :=
  (l.map (fun t => t.amount)).sum

/-- The `summary` block of the listing response
(`app/routers/transactions.py` lines 70-104). -/
structure Summary where
  total_income : Rat
  total_expense : Rat
  net_balance : Rat
  transaction_count : Nat
deriving DecidableEq, Repr

/-- The paginated listing response (`schemas.PaginatedTransactions`). -/
structure PaginatedTransactions where
  items : List Transaction
  total : Nat
  page : Nat
  size : Nat
  pages : Nat
  summary : Summary
deriving DecidableEq, Repr

/-- The summary queries of `get_transactions` re-filter from scratch:
user, polarity, and the date range only (lines 70-87 of the router) —
the category, type and amount filters of the main query are not applied. -/
def summaryFilter (uid : Nat) (f : TransactionFilter) (ty : TxType) (t : Transaction) : Bool :=
  t.user_id == uid && decide (t.type = ty) && matchesDates f.start_date f.end_date t

/-- `GET /api/v1/transactions/` (`get_transactions` in
`app/routers/transactions.py`): filter, count, order by date descending,
slice `[skip, skip+limit)`, then compute the summary from separate
date-only queries and the pagination numbers. -/
def get_transactions (db : DB) (uid skip limit : Nat) (f : TransactionFilter) :
    PaginatedTransactions :=
  let filtered := db.transactions.filter (matchesFilters uid f)
  let total := filtered.length
  let txs := ((orderByDateDesc filtered).drop skip).take limit
  let total_income := sumAmounts (db.transactions.filter (summaryFilter uid f TxType.income))
  let total_expense := sumAmounts (db.transactions.filter (summaryFilter uid f TxType.expense))
  let pages := if limit > 0 then (total + limit - 1) / limit else 0
  let page := if limit > 0 then skip / limit + 1 else 1
  { items := txs
    total := total
    page := page
    size := limit
    pages := pages
    summary :=
      { total_income := total_income
        total_expense := total_expense
        net_balance := total_income - total_expense
        transaction_count := total } }

/-- The failure signals of the transaction endpoints: the raised
`HTTP_404_NOT_FOUND` and `HTTP_400_BAD_REQUEST`, and the database
`IntegrityError` that escapes `db.commit()` when a NOT NULL column is
written with null (surfacing as a 500, with the commit rolled back). -/
inductive ApiError where
  | notFound
  | badRequest
  | integrityError
deriving DecidableEq, Repr

/-- `schemas.TransactionCreate` (`app/schemas/transaction.py`): the request
body of the create endpoint.  The pydantic validator enforces `amount > 0`,
kept as a side condition where needed rather than in the type. -/
structure TransactionCreate where
  amount : Rat
  date : Int
  description : Option String
  type : TxType
  category_id : Option Nat
deriving DecidableEq, Repr

/-- `db.query(models.Category).filter(Category.id == cid, Category.user_id == uid).first()`. -/
def findCategory (db : DB) (cid uid : Nat) : Option Category :=
  db.categories.find? (fun c => c.id == cid && c.user_id == uid)

/-- `db.query(models.Transaction).filter(Transaction.id == tid, Transaction.user_id == uid).first()`. -/
def findTransaction (db : DB) (tid uid : Nat) : Option Transaction :=
  db.transactions.find? (fun t => t.id == tid && t.user_id == uid)

/-- The row built by `models.Transaction(**transaction.dict(), user_id=current_user.id)`;
`newId` stands for the autoincrement primary key. -/
def newTxOf (uid newId : Nat) (tc : TransactionCreate) : Transaction :=
  { id := newId
    user_id := uid
    category_id := tc.category_id
    amount := tc.amount
    date := tc.date
    description := tc.description
    type := tc.type }

/-- `POST /api/v1/transactions/` (`create_transaction` in
`app/routers/transactions.py` lines 111-150).  The category check runs under
`if transaction.category_id:`, a Python truthiness test, so it is skipped both
when `category_id` is absent and when it equals `0`; otherwise a category not
owned by the caller is a 404 and a polarity mismatch a 400, each raised before
`db.add`/`db.commit`.  `newId` stands for the autoincrement primary key. -/
def create_transaction (db : DB) (uid newId : Nat) (tc : TransactionCreate) :
    Except ApiError (DB × Transaction) :=
  let check : Except ApiError Unit :=
    match tc.category_id with
    | none => Except.ok ()
    | some cid =>
      if cid = 0 then Except.ok ()
      else
        match findCategory db cid uid with
        | none => Except.error ApiError.notFound
        | some category =>
          if category.type = tc.type then Except.ok ()
          else Except.error ApiError.badRequest
  match check with
  | Except.error e => Except.error e
  | Except.ok _ =>
    Except.ok
      ({ db with transactions := db.transactions ++ [newTxOf uid newId tc] },
       newTxOf uid newId tc)

/-- `schemas.TransactionUpdate` (`app/schemas/transaction.py`), as the
update endpoint actually receives it: the parameter is declared
`transaction_update: schemas.TransactionUpdate = Depends()` (router line
192), so the five fields are query parameters and FastAPI constructs the
model passing every omitted field explicitly as `None`.  Each field is
therefore a plain `Option`, `none` meaning the field was omitted and
arrived as an explicit null. -/
structure TransactionUpdate where
  amount : Option Rat
  date : Option Int
  description : Option String
  type : Option TxType
  category_id : Option Nat
deriving DecidableEq, Repr

/-- The update with no field supplied (every field arrives as null). -/
def TransactionUpdate.empty : TransactionUpdate :=
  ⟨none, none, none, none, none⟩

/-- The `setattr` loop followed by `db.commit()` (router lines 240-246).
Because the payload comes in via `Depends()`, every field counts as set, so
`transaction_update.dict(exclude_unset=True)` returns all five fields and
the loop overwrites every column with the payload value: the nullable
`description` and `category_id` take it directly (nulled when omitted),
while writing null to a NOT NULL column — `amount`, `date` or `type`
omitted — makes `db.commit()` raise `IntegrityError`, rolling the write
back. -/
def commitUpdate (db : DB) (t : Transaction) (u : TransactionUpdate) :
    Except ApiError (DB × Transaction) :=
  match u.amount, u.date, u.type with
  | some a, some d2, some ty =>
    let updated : Transaction :=
      { id := t.id
        user_id := t.user_id
        category_id := u.category_id
        amount := a
        date := d2
        description := u.description
        type := ty }
    Except.ok
      ({ db with
          transactions := db.transactions.map
            (fun x => if x.id == t.id then updated else x) },
       updated)
  | _, _, _ => Except.error ApiError.integrityError

/-- `PUT /api/v1/transactions/{id}` (`update_transaction` in
`app/routers/transactions.py` lines 186-246).  The category cross-check runs
only under `if transaction_update.category_id is not None:`; inside it the
polarity compared is the new `type` if supplied, else the stored one
(`transaction_update.type.value if transaction_update.type else transaction.type`).
After the check, all five payload fields are written (see `commitUpdate`). -/
def update_transaction (db : DB) (uid tid : Nat) (u : TransactionUpdate) :
    Except ApiError (DB × Transaction) :=
  match findTransaction db tid uid with
  | none => Except.error ApiError.notFound
  | some t =>
    let check : Except ApiError Unit :=
      match u.category_id with
      | some cid =>
        match findCategory db cid uid with
        | none => Except.error ApiError.notFound
        | some category =>
          let transaction_type := match u.type with
            | some ty => ty
            | none => t.type
          if category.type = transaction_type then Except.ok ()
          else Except.error ApiError.badRequest
      | none => Except.ok ()
    match check with
    | Except.error e => Except.error e
    | Except.ok _ => commitUpdate db t u

/-- The response of `GET /api/v1/transactions/stats/summary`. -/
structure Stats where
  total_income : Rat
  total_expense : Rat
  net_balance : Rat
  transaction_count : Nat
  average_transaction : Rat
deriving DecidableEq, Repr

/-- `GET /api/v1/transactions/stats/summary` (`get_transaction_stats` in
`app/routers/transactions.py` lines 280-338): income sum, expense sum and a
row count over the caller's transactions in the optional date range; the mean
is `(income + expense) / count` guarded by `if transaction_count > 0`. -/
def get_transaction_stats (db : DB) (uid : Nat) (start_date end_date : Option Int) :
    Stats :=
  let inRange := matchesDates start_date end_date
  let total_income := sumAmounts (db.transactions.filter
    (fun t => t.user_id == uid && decide (t.type = TxType.income) && inRange t))
  let total_expense := sumAmounts (db.transactions.filter
    (fun t => t.user_id == uid && decide (t.type = TxType.expense) && inRange t))
  let transaction_count := (db.transactions.filter
    (fun t => t.user_id == uid && inRange t)).length
  let total_amount := total_income + total_expense
  let average_transaction :=
    if transaction_count > 0 then total_amount / (transaction_count : Rat) else 0
  { total_income := total_income
    total_expense := total_expense
    net_balance := total_income - total_expense
    transaction_count := transaction_count
    average_transaction := average_transaction }

/-- Seconds in a day: `timedelta(days=d)` is `d * 86400` seconds on the
integer-timestamp model of `datetime`. -/
def secondsPerDay : Int := 86400

/-- The response of `GET /api/v1/transactions/recent/{days}`. -/
structure RecentResult where
  transactions : List Transaction
  count : Nat
  days : Nat
  limit : Nat
deriving DecidableEq, Repr

/-- `GET /api/v1/transactions/recent/{days}` (`get_recent_transactions` in
`app/routers/transactions.py` lines 341-358): `start_date = utcnow() -
timedelta(days=days)`, then the caller's transactions with
`date >= start_date` — there is no upper-bound condition on `date` — ordered
by date descending and capped at `limit`. -/
def get_recent_transactions (db : DB) (uid : Nat) (now : Int) (days limit : Nat) :
    RecentResult :=
  let start_date := now - days * secondsPerDay
  let txs := (orderByDateDesc (db.transactions.filter
    (fun t => t.user_id == uid && decide (start_date ≤ t.date)))).take limit
  { transactions := txs
    count := txs.length
    days := days
    limit := limit }

/-- Deleting a category through the ORM session, as declared by
`Category.transactions = relationship(..., cascade="all, delete-orphan")`
(`app/models.py` line 44): the delete cascades to every transaction in the
relationship collection (those with `category_id == cid`), which are deleted
along with the category row. -/
def delete_category_orm (db : DB) (cid : Nat) : DB :=
  { transactions := db.transactions.filter (fun t => !(t.category_id == some cid))
    categories := db.categories.filter (fun c => !(c.id == cid)) }

/-- Deleting a category under the semantics declared at the schema level by
`Transaction.category_id = Column(..., ForeignKey("categories.id",
ondelete="SET NULL"), nullable=True)` (`app/models.py` line 62): the
transactions survive with `category_id` cleared to null. -/
def delete_category_set_null (db : DB) (cid : Nat) : DB :=
  { transactions := db.transactions.map
      (fun t => if t.category_id == some cid then { t with category_id := none } else t)
    categories := db.categories.filter (fun c => !(c.id == cid)) }

/-! Concrete fixtures used to instantiate and refute the claims: a caller with
id 7 owning an income category, an expense category and a few transactions. -/

/-- An income category owned by user 7. -/
def catIncome : Category :=
  { id := 1, user_id := 7, name := "Salary", type := TxType.income, icon := "S" }

/-- An expense category owned by user 7. -/
def catExpense : Category :=
  { id := 2, user_id := 7, name := "Food", type := TxType.expense, icon := "F" }

/-- An income transaction of user 7 in the income category. -/
def txIncome : Transaction :=
  { id := 1, user_id := 7, category_id := some 1, amount := 10, date := 100,
    description := none, type := TxType.income }

/-- An expense transaction of user 7 in the expense category. -/
def txExpense : Transaction :=
  { id := 2, user_id := 7, category_id := some 2, amount := 5, date := 200,
    description := none, type := TxType.expense }

/-- A transaction of a different user (id 8). -/
def txOther : Transaction :=
  { id := 3, user_id := 8, category_id := none, amount := 3, date := 150,
    description := none, type := TxType.expense }

/-- The standard example database. -/
def exDB : DB :=
  { transactions := [txIncome, txExpense, txOther]
    categories := [catIncome, catExpense] }

/-- A listing request filtering on polarity `income` only. -/
def incomeOnlyFilter : TransactionFilter :=
  { TransactionFilter.empty with type := some TxType.income }

/-- A listing request supplying `max_amount = 0` and nothing else. -/
def maxZeroFilter : TransactionFilter :=
  { TransactionFilter.empty with max_amount := some 0 }

/-- An update that supplies only the polarity, `expense` (every other query
parameter omitted, hence arriving as an explicit null). -/
def updTypeOnly : TransactionUpdate :=
  { TransactionUpdate.empty with type := some TxType.expense }

/-- An update that supplies only the polarity, `income` — matching the
stored category's polarity. -/
def updTypeOnlyIncome : TransactionUpdate :=
  { TransactionUpdate.empty with type := some TxType.income }

/-- A create request carrying `category_id = 0`. -/
def tcCatZero : TransactionCreate :=
  { amount := 5, date := 0, description := none, type := TxType.expense,
    category_id := some 0 }

/-- A transaction of user 7 dated one day after the reference instant 0. -/
def txFuture : Transaction :=
  { id := 9, user_id := 7, category_id := none, amount := 1, date := 86400,
    description := none, type := TxType.expense }

/-- A database holding only the future-dated transaction. -/
def dbFuture : DB := { transactions := [txFuture], categories := [] }

/-- A database with one category and one transaction inside it. -/
def dbOneCat : DB := { transactions := [txIncome], categories := [catIncome] }

/-- The empty database. -/
def dbEmpty : DB := { transactions := [], categories := [] }

/-- The row persisted by `create_transaction` for `tcCatZero`. -/
def txCatZero : Transaction :=
  { id := 1, user_id := 7, category_id := some 0, amount := 5, date := 0,
    description := none, type := TxType.expense }

/-- A create request declaring polarity `expense` against the income
category 1. -/
def tcMismatch : TransactionCreate :=
  { amount := 5, date := 0, description := none, type := TxType.expense,
    category_id := some 1 }

/-- An update supplying category 1 (income) together with polarity
`expense`. -/
def updCatMismatch : TransactionUpdate :=
  { TransactionUpdate.empty with
    category_id := some 1
    type := some TxType.expense }

/-- Two transactions of user 7 sharing the same date (a tie for
`ORDER BY date DESC`). -/
def txTieA : Transaction :=
  { id := 1, user_id := 7, category_id := none, amount := 1, date := 100,
    description := none, type := TxType.income }

/-- The second element of the date tie. -/
def txTieB : Transaction :=
  { id := 2, user_id := 7, category_id := none, amount := 2, date := 100,
    description := none, type := TxType.expense }

/-- A database whose two transactions tie on `date`. -/
def dbTie : DB := { transactions := [txTieA, txTieB], categories := [] }

/-! Supporting lemmas. -/

/-- Every transaction in a listing page satisfies the WHERE clause of the
main query. -/
theorem matches_of_mem_items {db : DB} {uid skip limit : Nat}
    {f : TransactionFilter} {t : Transaction}
    (h : t ∈ (get_transactions db uid skip limit f).items) :
    matchesFilters uid f t = true := by
  have h1 : t ∈ orderByDateDesc (db.transactions.filter (matchesFilters uid f)) :=
    List.mem_of_mem_drop (List.mem_of_mem_take h)
  have h2 : t ∈ db.transactions.filter (matchesFilters uid f) :=
    (List.mem_insertionSort dateDesc).mp h1
  exact (List.mem_filter.mp h2).2

/-- Concatenating the `⌈length/limit⌉` chunks of size `limit` of a list
reproduces the list. -/
theorem flatMap_range_chunks {α : Type} (limit : Nat) (h : 1 ≤ limit) :
    ∀ (n : Nat) (l : List α), l.length ≤ n →
      ((List.range ((l.length + limit - 1) / limit)).flatMap
        (fun k => (l.drop (k * limit)).take limit)) = l := by
  intro n
  induction n with
  | zero =>
    intro l hl
    have hnil : l = [] := List.eq_nil_of_length_eq_zero (Nat.le_zero.mp hl)
    subst hnil
    simp [Nat.div_eq_of_lt (by omega : limit - 1 < limit)]
  | succ n ih =>
    intro l hl
    by_cases hnil : l = []
    · subst hnil
      simp [Nat.div_eq_of_lt (by omega : limit - 1 < limit)]
    · have hlen1 : 1 ≤ l.length := by
        cases l with
        | nil => simp at hnil
        | cons a as => simp
      have hpages : (l.length + limit - 1) / limit = (l.length - 1) / limit + 1 := by
        have he : l.length + limit - 1 = (l.length - 1) + limit := by omega
        rw [he, Nat.add_div_right _ (by omega : 0 < limit)]
      rw [hpages, List.range_succ_eq_map, List.flatMap_cons, List.flatMap_map]
      simp only [Nat.zero_mul, List.drop_zero]
      by_cases hle : l.length ≤ limit
      · have h0 : (l.length - 1) / limit = 0 := Nat.div_eq_of_lt (by omega)
        rw [h0]
        simp [List.take_of_length_le hle]
      · have hdrop : (fun k : Nat => (l.drop (Nat.succ k * limit)).take limit)
            = (fun k : Nat => ((l.drop limit).drop (k * limit)).take limit) := by
          funext k
          rw [List.drop_drop]
          congr 1
          rw [Nat.succ_mul, Nat.add_comm]
        have hpages2 : ((l.drop limit).length + limit - 1) / limit
            = (l.length - 1) / limit := by
          simp only [List.length_drop]
          congr 1
          omega
        have ihapp := ih (l.drop limit) (by simp; omega)
        rw [hpages2] at ihapp
        rw [hdrop, ihapp, List.take_append_drop]

/-- The pagination formula `(t + l - 1) / l` of the router is ceiling
division. -/
theorem pred_div_eq_ceil (t l : Nat) (h : 1 ≤ l) :
    (t + l - 1) / l = ⌈(t : ℚ) / (l : ℚ)⌉₊ := by
  rcases Nat.eq_zero_or_pos t with ht | ht
  · subst ht
    simp [Nat.div_eq_of_lt (by omega : l - 1 < l)]
  · have hl0 : (0 : ℚ) < (l : ℚ) := by exact_mod_cast h
    have hq := (Nat.div_add_mod (t - 1) l).symm
    have hr : (t - 1) % l < l := Nat.mod_lt _ (by omega)
    have hk1 : (t + l - 1) / l = (t - 1) / l + 1 := by
      have he : t + l - 1 = (t - 1) + l := by omega
      rw [he, Nat.add_div_right _ (by omega : 0 < l)]
    set q := (t - 1) / l with hqdef
    set m := l * q with hmdef
    have hub : t ≤ ((t + l - 1) / l) * l := by
      rw [hk1]
      have he2 : (q + 1) * l = m + l := by rw [hmdef]; ring
      omega
    have hlb : ((t + l - 1) / l - 1) * l < t := by
      rw [hk1]
      have he3 : (q + 1 - 1) * l = m := by
        rw [hmdef, Nat.add_sub_cancel, Nat.mul_comm]
      rw [he3]
      omega
    symm
    rw [Nat.ceil_eq_iff (by rw [hk1]; exact Nat.succ_ne_zero q)]
    constructor
    · rw [lt_div_iff₀ hl0]
      exact_mod_cast hlb
    · rw [div_le_iff₀ hl0]
      exact_mod_cast hub

/-! The claims. -/

/-- Claim C1, counterexample: with a polarity filter `type = income`, the
filtered set of user 7 holds no expense transaction, so a summary computed
over the filtered set would have `total_expense = 0`; the endpoint reports
`total_expense = 5` because the summary queries apply only the date-range
filters. -/
theorem claim_C1_counterexample :
    incomeOnlyFilter.type = some TxType.income
    ∧ (get_transactions exDB 7 0 100 incomeOnlyFilter).summary.total_expense = 5
    ∧ sumAmounts ((exDB.transactions.filter (matchesFilters 7 incomeOnlyFilter)).filter
        (fun t => decide (t.type = TxType.expense))) = 0
    ∧ (get_transactions exDB 7 0 100 incomeOnlyFilter).summary.total_expense
        ≠ sumAmounts ((exDB.transactions.filter (matchesFilters 7 incomeOnlyFilter)).filter
            (fun t => decide (t.type = TxType.expense))) := by
  have h1 : exDB.transactions.filter (summaryFilter 7 incomeOnlyFilter TxType.expense)
      = [txExpense] := rfl
  have h2 : (exDB.transactions.filter (matchesFilters 7 incomeOnlyFilter)).filter
      (fun t => decide (t.type = TxType.expense)) = [] := rfl
  refine ⟨rfl, ?_, ?_, ?_⟩
  · show sumAmounts (exDB.transactions.filter
        (summaryFilter 7 incomeOnlyFilter TxType.expense)) = 5
    rw [h1]
    simp [sumAmounts, txExpense]
  · rw [h2]
    simp [sumAmounts]
  · show sumAmounts (exDB.transactions.filter
        (summaryFilter 7 incomeOnlyFilter TxType.expense)) ≠ _
    rw [h1, h2]
    simp [sumAmounts, txExpense]

/-- Claim C1 (amended): the summary sums of a listing response are computed
over the caller's transactions with only the date-range filters applied (the
category, polarity and amount filters are ignored by the summary queries),
while `summary.transaction_count` and `total` are the size of the fully
filtered, unsliced set; `summary.net_balance = total_income - total_expense`
holds for every listing response. -/
theorem claim_C1_amended (db : DB) (uid skip limit : Nat) (f : TransactionFilter) :
    (get_transactions db uid skip limit f).summary.total_income
        = sumAmounts (db.transactions.filter (summaryFilter uid f TxType.income))
    ∧ (get_transactions db uid skip limit f).summary.total_expense
        = sumAmounts (db.transactions.filter (summaryFilter uid f TxType.expense))
    ∧ (get_transactions db uid skip limit f).summary.net_balance
        = (get_transactions db uid skip limit f).summary.total_income
          - (get_transactions db uid skip limit f).summary.total_expense
    ∧ (get_transactions db uid skip limit f).summary.transaction_count
        = (db.transactions.filter (matchesFilters uid f)).length
    ∧ (get_transactions db uid skip limit f).total
        = (db.transactions.filter (matchesFilters uid f)).length :=
  ⟨rfl, rfl, rfl, rfl, rfl⟩

/-- Claim C4: deleting a category through the ORM session does NOT leave its
transactions behind with `category_id` cleared: the relationship
`cascade="all, delete-orphan"` on `Category.transactions` deletes them, in
contradiction with the `ondelete="SET NULL"` declared on the
`Transaction.category_id` foreign key (the semantics the claim states).  At
the failing input, a database with one category and one transaction in it,
the cascade semantics loses the transaction row while the SET-NULL semantics
keeps it with `category_id = none`. -/
theorem claim_C4_cascade_delete :
    dbOneCat.transactions = [txIncome]
    ∧ txIncome.category_id = some 1
    ∧ (delete_category_orm dbOneCat 1).transactions = []
    ∧ (delete_category_set_null dbOneCat 1).transactions
        = [{ txIncome with category_id := none }] :=
  ⟨rfl, rfl, rfl, rfl⟩

/-- Claim C6: for a listing with `limit ≥ 1`, the returned page number is
`floor(skip/limit) + 1` (natural division is the floor), and the returned
page count is the ceiling of `total / limit`, which is `0` when `total = 0`. -/
theorem claim_C6_pagination_math (db : DB) (uid skip limit : Nat)
    (f : TransactionFilter) (h1 : 1 ≤ limit) (h2 : limit ≤ 200) :
    (get_transactions db uid skip limit f).page = skip / limit + 1
    ∧ (get_transactions db uid skip limit f).pages
        = ⌈((get_transactions db uid skip limit f).total : ℚ) / ((limit : Nat) : ℚ)⌉₊
    ∧ ((get_transactions db uid skip limit f).total = 0
        → (get_transactions db uid skip limit f).pages = 0) := by
  have hlim : limit > 0 := h1
  refine ⟨?_, ?_, ?_⟩
  · simp [get_transactions, if_pos hlim]
  · show (if limit > 0 then
        ((db.transactions.filter (matchesFilters uid f)).length + limit - 1) / limit
      else 0) = _
    rw [if_pos hlim]
    exact pred_div_eq_ceil _ _ h1
  · intro h0
    show (if limit > 0 then
        ((db.transactions.filter (matchesFilters uid f)).length + limit - 1) / limit
      else 0) = 0
    have h0' : (db.transactions.filter (matchesFilters uid f)).length = 0 := h0
    rw [if_pos hlim, h0']
    exact Nat.div_eq_of_lt (by omega)

/-- Claim C6, witness: the theorem applied at the example database with
`skip = 0`, `limit = 100`. -/
theorem claim_C6_pagination_math_witness :
    (1 ≤ 100 ∧ 100 ≤ 200)
    ∧ (get_transactions exDB 7 0 100 TransactionFilter.empty).page = 0 / 100 + 1 :=
  ⟨⟨by decide, by decide⟩,
   (claim_C6_pagination_math exDB 7 0 100 TransactionFilter.empty
     (by decide) (by decide)).1⟩

/-- Claim C8: the aggregate statistics report the income sum, the expense
sum and the row count over the caller's transactions in the optional date
range; `net_balance = total_income - total_expense`; and the mean is
`(total_income + total_expense) / count`, with mean exactly `0` when the
count is `0` (the division is guarded, never executed on a zero count). -/
theorem claim_C8_stats (db : DB) (uid : Nat) (sd ed : Option Int) :
    (get_transaction_stats db uid sd ed).total_income
        = sumAmounts (db.transactions.filter
            (fun t => t.user_id == uid && decide (t.type = TxType.income)
              && matchesDates sd ed t))
    ∧ (get_transaction_stats db uid sd ed).total_expense
        = sumAmounts (db.transactions.filter
            (fun t => t.user_id == uid && decide (t.type = TxType.expense)
              && matchesDates sd ed t))
    ∧ (get_transaction_stats db uid sd ed).net_balance
        = (get_transaction_stats db uid sd ed).total_income
          - (get_transaction_stats db uid sd ed).total_expense
    ∧ (get_transaction_stats db uid sd ed).transaction_count
        = (db.transactions.filter
            (fun t => t.user_id == uid && matchesDates sd ed t)).length
    ∧ (get_transaction_stats db uid sd ed).average_transaction
        = (if (get_transaction_stats db uid sd ed).transaction_count = 0 then 0
           else ((get_transaction_stats db uid sd ed).total_income
                  + (get_transaction_stats db uid sd ed).total_expense)
                / (((get_transaction_stats db uid sd ed).transaction_count : Nat) : Rat)) := by
  refine ⟨rfl, rfl, rfl, rfl, ?_⟩
  simp only [get_transaction_stats]
  by_cases h : (db.transactions.filter
      (fun t => t.user_id == uid && matchesDates sd ed t)).length = 0
  · rw [h]
    simp
  · rw [if_pos (Nat.pos_of_ne_zero h), if_neg h]

/-- Claim C10: a supplied-but-falsy filter value — `category_id = 0`,
`min_amount = 0` or `max_amount = 0` — imposes no constraint: the listing
response is exactly the one for the same request with that field absent
(the Python condition `if category_id:` is false at `0`). -/
theorem claim_C10_falsy_filters (db : DB) (uid skip limit : Nat) (f : TransactionFilter) :
    (f.category_id = some 0 →
      get_transactions db uid skip limit f
        = get_transactions db uid skip limit { f with category_id := none })
    ∧ (f.min_amount = some 0 →
      get_transactions db uid skip limit f
        = get_transactions db uid skip limit { f with min_amount := none })
    ∧ (f.max_amount = some 0 →
      get_transactions db uid skip limit f
        = get_transactions db uid skip limit { f with max_amount := none }) := by
  refine ⟨?_, ?_, ?_⟩
  · intro h
    have hm : matchesFilters uid f
        = matchesFilters uid { f with category_id := none } := by
      funext t
      simp [matchesFilters, h]
    simp only [get_transactions, hm]
    rfl
  · intro h
    have hm : matchesFilters uid f
        = matchesFilters uid { f with min_amount := none } := by
      funext t
      simp [matchesFilters, h]
    simp only [get_transactions, hm]
    rfl
  · intro h
    have hm : matchesFilters uid f
        = matchesFilters uid { f with max_amount := none } := by
      funext t
      simp [matchesFilters, h]
    simp only [get_transactions, hm]
    rfl

/-- Claim C10, witness: the theorem applied with `max_amount = 0` supplied:
the response equals the one with no amount upper bound (and is nonempty, not
the empty set). -/
theorem claim_C10_falsy_filters_witness :
    maxZeroFilter.max_amount = some 0
    ∧ get_transactions exDB 7 0 100 maxZeroFilter
        = get_transactions exDB 7 0 100 { maxZeroFilter with max_amount := none } :=
  ⟨rfl, (claim_C10_falsy_filters exDB 7 0 100 maxZeroFilter).2.2 rfl⟩

/-- Reduction of `update_transaction` once the target transaction is found:
the category cross-check runs only when a (non-null) category id is supplied. -/
theorem update_transaction_eq (db : DB) (uid tid : Nat) (u : TransactionUpdate)
    (t : Transaction) (hfind : findTransaction db tid uid = some t) :
    update_transaction db uid tid u =
      (match u.category_id with
       | some cid =>
         match findCategory db cid uid with
         | none => Except.error ApiError.notFound
         | some c =>
           if c.type = u.type.getD t.type then commitUpdate db t u
           else Except.error ApiError.badRequest
       | none => commitUpdate db t u) := by
  unfold update_transaction
  rw [hfind]
  cases hc : u.category_id with
  | none => rfl
  | some cid =>
    cases hcat : findCategory db cid uid with
    | none => simp [hcat]
    | some c =>
      cases hty : u.type with
      | none =>
        simp only [hcat, hty, Option.getD]
        by_cases hcc : c.type = t.type <;> simp [hcc]
      | some ty =>
        simp only [hcat, hty, Option.getD]
        by_cases hcc : c.type = ty <;> simp [hcc]

/-- Claim C2, counterexample: user 7's transaction 1 sits in the income
category 1; an update supplying only `type = expense` (category id not among
the supplied fields) runs no cross-validation at all.  It does not fail with
the create-style validation signal: because the payload arrives via
`Depends()`, the omitted `amount` and `date` are written as null and the
commit fails with the database integrity error instead — and the identical
update with the matching polarity `income` fails the same way, showing the
failure has nothing to do with the claimed validation. -/
theorem claim_C2_counterexample :
    updTypeOnly.category_id = none
    ∧ updTypeOnly.type = some TxType.expense
    ∧ updTypeOnly.amount = none
    ∧ updTypeOnly.date = none
    ∧ findTransaction dbOneCat 1 7 = some txIncome
    ∧ txIncome.category_id = some 1
    ∧ findCategory dbOneCat 1 7 = some catIncome
    ∧ catIncome.type = TxType.income
    ∧ update_transaction dbOneCat 7 1 updTypeOnly = Except.error ApiError.integrityError
    ∧ ApiError.integrityError ≠ ApiError.badRequest
    ∧ update_transaction dbOneCat 7 1 updTypeOnlyIncome
        = Except.error ApiError.integrityError :=
  ⟨rfl, rfl, rfl, rfl, rfl, rfl, rfl, rfl, rfl, by decide, rfl⟩

/-- Claim C2 (amended): on update of an existing transaction, the
category/polarity cross-validation runs exactly when a category id is
supplied; it then checks the target category against the new polarity if
supplied, else the stored one, failing with the same 404/400 signals as
create.  An update that does not supply a category id — in particular one
supplying only the polarity — is never cross-validated.  After the check,
because the payload arrives via `Depends()` every omitted field is applied
as an explicit null: the write succeeds only when `amount`, `date` and the
polarity are all supplied (`description` and `category_id` are overwritten
with the payload values, nulled when omitted), and otherwise fails with the
database integrity error, not the create-style validation failure. -/
theorem claim_C2_amended (db : DB) (uid tid : Nat) (u : TransactionUpdate)
    (t : Transaction) (hfind : findTransaction db tid uid = some t) :
    (∀ cid, u.category_id = some cid →
        (findCategory db cid uid = none →
          update_transaction db uid tid u = Except.error ApiError.notFound)
        ∧ (∀ c, findCategory db cid uid = some c →
            (¬ c.type = u.type.getD t.type →
              update_transaction db uid tid u = Except.error ApiError.badRequest)
            ∧ (c.type = u.type.getD t.type →
              update_transaction db uid tid u = commitUpdate db t u)))
    ∧ (u.category_id = none →
        update_transaction db uid tid u = commitUpdate db t u)
    ∧ (∀ a d2 ty, u.amount = some a → u.date = some d2 → u.type = some ty →
        commitUpdate db t u
          = Except.ok
              ({ db with
                  transactions := db.transactions.map
                    (fun x => if x.id == t.id then
                        { id := t.id, user_id := t.user_id,
                          category_id := u.category_id, amount := a, date := d2,
                          description := u.description, type := ty }
                      else x) },
               { id := t.id, user_id := t.user_id, category_id := u.category_id,
                 amount := a, date := d2, description := u.description,
                 type := ty }))
    ∧ ((u.amount = none ∨ u.date = none ∨ u.type = none) →
        commitUpdate db t u = Except.error ApiError.integrityError) := by
  have hred := update_transaction_eq db uid tid u t hfind
  refine ⟨?_, ?_, ?_, ?_⟩
  · intro cid hcid
    simp only [hcid] at hred
    constructor
    · intro hcat
      simp only [hcat] at hred
      exact hred
    · intro c hcat
      simp only [hcat] at hred
      constructor
      · intro hty
        rw [if_neg hty] at hred
        exact hred
      · intro hty
        rw [if_pos hty] at hred
        exact hred
  · intro hnone
    simp only [hnone] at hred
    exact hred
  · intro a d2 ty ha hd2 hty
    simp [commitUpdate, ha, hd2, hty]
  · intro h
    rcases h with h | h | h
    · cases hd2 : u.date <;> cases hty : u.type <;> simp [commitUpdate, h, hd2, hty]
    · cases ha : u.amount <;> cases hty : u.type <;> simp [commitUpdate, h, ha, hty]
    · cases ha : u.amount <;> cases hd2 : u.date <;> simp [commitUpdate, h, ha, hd2]

/-- Claim C2, witness: the amended theorem applied where the update does
supply a mismatching category id: rejected with the create-style 400. -/
theorem claim_C2_amended_witness :
    findTransaction dbOneCat 1 7 = some txIncome
    ∧ updCatMismatch.category_id = some 1
    ∧ findCategory dbOneCat 1 7 = some catIncome
    ∧ ¬ catIncome.type = updCatMismatch.type.getD txIncome.type
    ∧ update_transaction dbOneCat 7 1 updCatMismatch = Except.error ApiError.badRequest :=
  ⟨rfl, rfl, rfl, by decide,
   (((claim_C2_amended dbOneCat 7 1 updCatMismatch txIncome rfl).1 1 rfl).2
     catIncome rfl).1 (by decide)⟩

/-- Claim C3, counterexample: a listing request supplying `max_amount = 0`
returns a transaction of amount `5`, violating the supplied predicate
`amount ≤ 0` (the zero-valued filter is dropped by the truthiness test). -/
theorem claim_C3_counterexample :
    maxZeroFilter.max_amount = some 0
    ∧ (get_transactions exDB 7 0 100 maxZeroFilter).items = [txExpense, txIncome]
    ∧ txExpense.amount = 5
    ∧ ¬ ((5 : Rat) ≤ 0) :=
  ⟨rfl, rfl, rfl, by norm_num⟩

/-- Claim C3 (amended): every transaction returned by a listing belongs to
the requesting caller, and satisfies every supplied filter whose value is
effective — i.e. any supplied date bound, and any supplied category id,
polarity, or amount bound that is non-zero; a supplied zero value for
`category_id`, `min_amount` or `max_amount` imposes no constraint. -/
theorem claim_C3_amended (db : DB) (uid skip limit : Nat) (f : TransactionFilter)
    (t : Transaction) (ht : t ∈ (get_transactions db uid skip limit f).items) :
    t.user_id = uid
    ∧ (∀ d, f.start_date = some d → d ≤ t.date)
    ∧ (∀ d, f.end_date = some d → t.date ≤ d)
    ∧ (∀ c, f.category_id = some c → c ≠ 0 → t.category_id = some c)
    ∧ (∀ ty, f.type = some ty → t.type = ty)
    ∧ (∀ m, f.min_amount = some m → m ≠ 0 → m ≤ t.amount)
    ∧ (∀ m, f.max_amount = some m → m ≠ 0 → t.amount ≤ m) := by
  have hm := matches_of_mem_items ht
  unfold matchesFilters at hm
  simp only [Bool.and_eq_true, beq_iff_eq] at hm
  obtain ⟨⟨⟨⟨⟨hu, hd⟩, hc⟩, hty⟩, hmin⟩, hmax⟩ := hm
  refine ⟨hu, ?_, ?_, ?_, ?_, ?_, ?_⟩
  · intro d hsd
    unfold matchesDates at hd
    rw [hsd] at hd
    simp only [Bool.and_eq_true, decide_eq_true_eq] at hd
    exact hd.1
  · intro d hed
    unfold matchesDates at hd
    rw [hed] at hd
    simp only [Bool.and_eq_true, decide_eq_true_eq] at hd
    exact hd.2
  · intro c hcat hc0
    simp only [hcat] at hc
    rw [if_neg hc0] at hc
    simpa using hc
  · intro ty hmt
    simp only [hmt] at hty
    simpa using hty
  · intro m hmm hm0
    simp only [hmm] at hmin
    rw [if_neg hm0] at hmin
    simpa using hmin
  · intro m hmm hm0
    simp only [hmm] at hmax
    rw [if_neg hm0] at hmax
    simpa using hmax

/-- Claim C3, witness: the amended theorem applied to the income transaction
returned under the polarity filter. -/
theorem claim_C3_amended_witness :
    txIncome ∈ (get_transactions exDB 7 0 100 incomeOnlyFilter).items
    ∧ txIncome.user_id = 7 :=
  ⟨by decide,
   (claim_C3_amended exDB 7 0 100 incomeOnlyFilter txIncome (by decide)).1⟩

/-- Claim C7, counterexample: a create request carrying `category_id = 0` —
a category id that belongs to no caller — is not rejected with the not-found
signal: the truthiness test `if transaction.category_id:` skips the whole
category check at `0` and the transaction is persisted. -/
theorem claim_C7_counterexample :
    tcCatZero.category_id = some 0
    ∧ findCategory dbEmpty 0 7 = none
    ∧ create_transaction dbEmpty 7 1 tcCatZero
        = Except.ok ({ transactions := [txCatZero], categories := [] }, txCatZero) :=
  ⟨rfl, rfl, rfl⟩

/-- Claim C7 (amended): for a create request with a non-zero category id,
a category not owned by the caller fails with the not-found signal and a
polarity mismatch with the validation signal, in both cases before any
write (the error result carries no new state); with no category id, with
`category_id = 0`, or with a matching owned category, the create succeeds
and appends exactly the new transaction. -/
theorem claim_C7_amended (db : DB) (uid newId : Nat) (tc : TransactionCreate) :
    (∀ cid, tc.category_id = some cid → cid ≠ 0 →
        (findCategory db cid uid = none →
          create_transaction db uid newId tc = Except.error ApiError.notFound)
        ∧ (∀ c, findCategory db cid uid = some c →
            (¬ c.type = tc.type →
              create_transaction db uid newId tc = Except.error ApiError.badRequest)
            ∧ (c.type = tc.type →
              create_transaction db uid newId tc
                = Except.ok
                    ({ db with transactions := db.transactions ++ [newTxOf uid newId tc] },
                     newTxOf uid newId tc))))
    ∧ ((tc.category_id = none ∨ tc.category_id = some 0) →
        create_transaction db uid newId tc
          = Except.ok
              ({ db with transactions := db.transactions ++ [newTxOf uid newId tc] },
               newTxOf uid newId tc)) := by
  constructor
  · intro cid hcid hne
    constructor
    · intro hcat
      simp [create_transaction, hcid, hne, hcat]
    · intro c hcat
      constructor
      · intro hty
        simp [create_transaction, hcid, hne, hcat, hty]
      · intro hty
        simp [create_transaction, hcid, hne, hcat, hty]
  · intro hc
    cases hc with
    | inl h => simp [create_transaction, h]
    | inr h => simp [create_transaction, h]

/-- Claim C7, witness: the amended theorem applied at a create request whose
polarity contradicts its (owned, non-zero) category: rejected with the
validation signal. -/
theorem claim_C7_amended_witness :
    tcMismatch.category_id = some 1
    ∧ findCategory exDB 1 7 = some catIncome
    ∧ ¬ catIncome.type = tcMismatch.type
    ∧ create_transaction exDB 7 5 tcMismatch = Except.error ApiError.badRequest :=
  ⟨rfl, rfl, by decide,
   (((claim_C7_amended exDB 7 5 tcMismatch).1 1 rfl (by decide)).2
     catIncome rfl).1 (by decide)⟩

/-- Claim C9, counterexample: with `now = 0`, `days = 30`, `limit = 50`, a
transaction dated `86400` (one day after `now`) is returned by the recency
endpoint: the query has no upper bound on `date`, so the window is not
`[now - days, now]`. -/
theorem claim_C9_counterexample :
    (get_recent_transactions dbFuture 7 0 30 50).transactions = [txFuture]
    ∧ txFuture.date = 86400
    ∧ (0 : Int) < txFuture.date :=
  ⟨rfl, rfl, by decide⟩

/-- Claim C9 (amended): for `days` in 1..365 and `limit` in 1..200, every
transaction returned by the recency endpoint belongs to the caller and is
dated in `[now - days, ∞)` — at or after `now - days`, with no upper bound,
so future-dated transactions are also returned — ordered newest first and
capped at `limit`. -/
theorem claim_C9_amended (db : DB) (uid : Nat) (now : Int) (days limit : Nat)
    (hd1 : 1 ≤ days) (hd2 : days ≤ 365) (hl1 : 1 ≤ limit) (hl2 : limit ≤ 200) :
    (∀ t ∈ (get_recent_transactions db uid now days limit).transactions,
        t.user_id = uid ∧ now - days * secondsPerDay ≤ t.date)
    ∧ List.Sorted dateDesc (get_recent_transactions db uid now days limit).transactions
    ∧ (get_recent_transactions db uid now days limit).transactions.length ≤ limit
    ∧ (get_recent_transactions db uid now days limit).count
        = (get_recent_transactions db uid now days limit).transactions.length := by
  refine ⟨?_, ?_, ?_, rfl⟩
  · intro t ht
    have h1 : t ∈ orderByDateDesc (db.transactions.filter
        (fun x => x.user_id == uid && decide (now - days * secondsPerDay ≤ x.date))) :=
      List.mem_of_mem_take ht
    have h2 := (List.mem_insertionSort dateDesc).mp h1
    have h3 := (List.mem_filter.mp h2).2
    simp only [Bool.and_eq_true, beq_iff_eq, decide_eq_true_eq] at h3
    exact h3
  · exact List.Pairwise.sublist (List.take_sublist _ _)
      (List.sorted_insertionSort dateDesc _)
  · show (List.take limit _).length ≤ limit
    simp [List.length_take]

/-- Claim C9, witness: the amended theorem applied at the example database. -/
theorem claim_C9_amended_witness :
    (1 ≤ 30 ∧ 30 ≤ 365 ∧ 1 ≤ 50 ∧ 50 ≤ 200)
    ∧ (get_recent_transactions dbFuture 7 0 30 50).count
        = (get_recent_transactions dbFuture 7 0 30 50).transactions.length :=
  ⟨⟨by decide, by decide, by decide, by decide⟩,
   (claim_C9_amended dbFuture 7 0 30 50 (by decide) (by decide) (by decide)
     (by decide)).2.2.2⟩

/-- Claim C5, counterexample: the SQL emitted by the listing is
`ORDER BY date DESC` with no tiebreak, so its contract
(`isOrderByDateDescResult`) does not determine the order of equal-date rows.
On the concrete listing input `dbTie`, user 7, empty filter, `limit = 1`,
both orders of the two date-100 rows are engine-compliant and differ — the
order is not deterministic and no insertion-order tie-break is guaranteed —
and if the two page queries (`skip = 0` and `skip = 1`) are answered by
different compliant orders, the concatenated pages are `[txTieA, txTieA]`:
one row twice, the other never, refuting the exactly-once page
concatenation. -/
theorem claim_C5_counterexample :
    dbTie.transactions.filter (matchesFilters 7 TransactionFilter.empty)
        = [txTieA, txTieB]
    ∧ txTieA.date = txTieB.date
    ∧ txTieA ≠ txTieB
    ∧ isOrderByDateDescResult
        (dbTie.transactions.filter (matchesFilters 7 TransactionFilter.empty))
        [txTieA, txTieB]
    ∧ isOrderByDateDescResult
        (dbTie.transactions.filter (matchesFilters 7 TransactionFilter.empty))
        [txTieB, txTieA]
    ∧ [txTieA, txTieB] ≠ [txTieB, txTieA]
    ∧ (([txTieA, txTieB].drop (0 * 1)).take 1
        ++ ([txTieB, txTieA].drop (1 * 1)).take 1) = [txTieA, txTieA]
    ∧ ¬ ([txTieA, txTieA].Perm
        (dbTie.transactions.filter (matchesFilters 7 TransactionFilter.empty))) := by
  refine ⟨rfl, rfl, by decide, ⟨List.Perm.refl _, ?_⟩, ⟨?_, ?_⟩, by decide, rfl, ?_⟩
  · decide
  · exact List.Perm.swap txTieA txTieB []
  · decide
  · decide

/-- Claim C5 (amended): the embedding's fixed ordering is engine-compliant,
and the items of a listing are its `[skip, skip+limit)` slice, sorted by
date descending, with `items.length ≤ limit`; `total` counts the whole
filtered set independently of the slice; and for ANY one engine-compliant
ordering of the filtered set — i.e. provided the engine answers every page
query with the same order — concatenating the pages obtained by stepping
`skip` through `0, limit, 2·limit, …` for `pages` pages reproduces that
ordering, hence the full filtered set exactly once.  The code supplies no
tiebreak, so which compliant ordering occurs (and hence the relative order
of equal-date rows) is not determined by the program. -/
theorem claim_C5_amended (db : DB) (uid skip limit : Nat)
    (f : TransactionFilter) (hl : 1 ≤ limit) :
    isOrderByDateDescResult (db.transactions.filter (matchesFilters uid f))
        (orderByDateDesc (db.transactions.filter (matchesFilters uid f)))
    ∧ (get_transactions db uid skip limit f).items
        = ((orderByDateDesc (db.transactions.filter (matchesFilters uid f))).drop
            skip).take limit
    ∧ List.Sorted dateDesc (get_transactions db uid skip limit f).items
    ∧ (get_transactions db uid skip limit f).items.length ≤ limit
    ∧ (get_transactions db uid skip limit f).total
        = (db.transactions.filter (matchesFilters uid f)).length
    ∧ (∀ result,
        isOrderByDateDescResult (db.transactions.filter (matchesFilters uid f)) result →
        (List.range (get_transactions db uid skip limit f).pages).flatMap
            (fun k => (result.drop (k * limit)).take limit)
          = result) := by
  refine ⟨⟨List.perm_insertionSort dateDesc _, List.sorted_insertionSort dateDesc _⟩,
    rfl, ?_, ?_, rfl, ?_⟩
  · exact List.Pairwise.sublist
      ((List.take_sublist _ _).trans (List.drop_sublist _ _))
      (List.sorted_insertionSort dateDesc _)
  · show (List.take limit _).length ≤ limit
    simp [List.length_take]
  · intro result hres
    have hlen : result.length
        = (db.transactions.filter (matchesFilters uid f)).length :=
      hres.1.length_eq
    have hch := flatMap_range_chunks limit hl result.length result le_rfl
    show (List.range (if limit > 0 then
        ((db.transactions.filter (matchesFilters uid f)).length + limit - 1) / limit
      else 0)).flatMap _ = _
    rw [if_pos (by omega : limit > 0), ← hlen]
    exact hch

/-- Claim C5, witness: the amended theorem applied at the example database
with `skip = 0`, `limit = 100`. -/
theorem claim_C5_amended_witness :
    1 ≤ 100
    ∧ (get_transactions exDB 7 0 100 TransactionFilter.empty).items
        = ((orderByDateDesc (exDB.transactions.filter
            (matchesFilters 7 TransactionFilter.empty))).drop 0).take 100 :=
  ⟨by decide,
   (claim_C5_amended exDB 7 0 100 TransactionFilter.empty (by decide)).2.1⟩

end MoneyTracker
